import Mathlib

/-!
Shallow embedding of `src/agent/native/src/main/cpp/agent.cpp` (the IDE Perf
JVMTI allocation-sampling agent) and proofs about it.

The agent keeps one `thread_local jlong thread_allocations = 0` per thread.
We model the collection of thread-local cells as a total map from an opaque
thread identity to the cell's value, and `jlong` as a mathematical integer
together with an explicit 64-bit two's-complement wrap applied at the one
place the code performs `jlong` arithmetic (`thread_allocations += ...`).
The JVMTI/JNI host is modelled as an oracle recording the status each host
call would return; `fprintf(stderr, ...)` becomes an explicit list of
diagnostic strings, and the sequence of host calls `Agent_OnAttach` performs
is recorded as a trace. The `jvmti->Deallocate` call in `HandleJvmtiError`
releases host memory and has no observable effect in this model.
-/

namespace IdePerfAgent

/-- JNI status code `JNI_OK` (0). -/
def JNI_OK : Int := 0

/-- JNI status code `JNI_ERR` (-1). -/
def JNI_ERR : Int := -1

/-- `JVMTI_ERROR_NONE` (0); `jvmtiError` values are modelled as `Nat`. -/
def JVMTI_ERROR_NONE : Nat := 0

/-- `constexpr jint kHeapSamplingInterval = 256 * 1024;` (agent.cpp line 41). -/
def kHeapSamplingInterval : Int := 256 * 1024

/-- `constexpr jlong kHeapSamplingIntervalLong = kHeapSamplingInterval;` (line 42). -/
def kHeapSamplingIntervalLong : Int := kHeapSamplingInterval

/-- 64-bit two's-complement wrap: reduce modulo `2 ^ 64` and reinterpret the
residue as a signed value in `[-2 ^ 63, 2 ^ 63)`.  This is the semantics of
the unchecked `jlong` addition in the callback. -/
def wrap64 (x : Int) : Int :=
  if x % 2 ^ 64 < 2 ^ 63 then x % 2 ^ 64 else x % 2 ^ 64 - 2 ^ 64

/-- Opaque identity of a native thread. -/
abbrev ThreadId := Nat

/-- The mutable state of the agent: every thread's `thread_allocations`
cell (agent.cpp line 52).  Each cell starts at 0, so the map is total. -/
structure AgentState where
  thread_allocations : ThreadId → Int

/-- The state at agent start: every thread-local cell is zero-initialised. -/
def initState : AgentState := ⟨fun _ => 0⟩

/-- `SampledObjectAlloc` (agent.cpp lines 54-69): executed on `caller`, it
performs `thread_allocations += std::max(kHeapSamplingIntervalLong, size)`
on the caller's own thread-local cell.  The `jvmti`, `jni`, `thread`,
`object` and `klass` parameters are unused by the body and omitted. -/
def SampledObjectAlloc (st : AgentState) (caller : ThreadId) (size : Int) : AgentState :=
  { st with
    thread_allocations := fun u =>
      if u = caller then
        wrap64 (st.thread_allocations caller + max kHeapSamplingIntervalLong size)
      else st.thread_allocations u }

/-- `Java_com_google_idea_perf_AllocationSampling_countAllocationsForCurrentThread`
(agent.cpp lines 71-77): returns the calling thread's cell, touching nothing. -/
def countAllocationsForCurrentThread (st : AgentState) (caller : ThreadId) : Int :=
  st.thread_allocations caller

/-- An observable steady-state operation: a sampling notification delivered on
a thread, or a query executed by a thread. -/
inductive Op where
  | notifyAlloc (caller : ThreadId) (size : Int)
  | queryCount (caller : ThreadId)

/-- State transformer of one operation: a notification runs the callback, a
query reads and leaves the state as it is. -/
def step (st : AgentState) (op : Op) : AgentState :=
  match op with
  | .notifyAlloc t s => SampledObjectAlloc st t s
  | .queryCount _ => st

/-- Run a sequence of operations from agent start. -/
def execOps (ops : List Op) : AgentState :=
  ops.foldl step initState

/-- Whether an operation is a notification delivered on thread `t`. -/
def notifiesThread (t : ThreadId) : Op → Bool
  | .notifyAlloc u _ => u == t
  | .queryCount _ => false

/-- Deliver a list of sampled sizes as notifications on thread `t`. -/
def runNotifies (st : AgentState) (t : ThreadId) (sizes : List Int) : AgentState :=
  sizes.foldl (fun acc s => SampledObjectAlloc acc t s) st

/-- The value-level effect of a notification list on one cell. -/
def applyCharges (c : Int) (sizes : List Int) : Int :=
  sizes.foldl (fun acc s => wrap64 (acc + max kHeapSamplingIntervalLong s)) c

/-- The exact mathematical sum the spec predicts: `sum of max(I, s_i)`. -/
def chargeSum (sizes : List Int) : Int :=
  (sizes.map (fun s => max kHeapSamplingIntervalLong s)).sum

/-! ### Initialization (`Agent_OnAttach` / `Agent_OnLoad`) -/

/-- One host call `Agent_OnAttach` can perform, in source order. -/
inductive HostCall where
  | getEnv
  | addCapabilities
  | setEventCallbacks
  | setHeapSamplingInterval
  | setEventNotificationMode
deriving DecidableEq

/-- Oracle for the JVM host: the status each call would return, and the
host's `GetErrorName` table (`none` models a lookup that leaves the name
pointer null). -/
structure Host where
  getEnvResult : Int
  addCapabilitiesError : Nat
  setEventCallbacksError : Nat
  setHeapSamplingIntervalError : Nat
  setEventNotificationModeError : Nat
  getErrorName : Nat → Option String

/-- `HandleJvmtiError` (agent.cpp lines 27-39): returns whether `err` is an
error, together with the diagnostics printed to stderr.  On error it prints
exactly one line, substituting `"Unknown"` when `GetErrorName` produced no
name; the failed lookup itself is not reported. -/
def HandleJvmtiError (host : Host) (err : Nat) (msg : String) : Bool × List String :=
  if err = JVMTI_ERROR_NONE then (false, [])
  else
    (true, ["JVMTI error: " ++ toString err ++ "(" ++ (host.getErrorName err).getD "Unknown"
      ++ ") " ++ msg ++ "\n"])

/-- Outcome of an initialization entry point: the returned status, the trace
of host calls performed, and the diagnostics printed. -/
structure AttachResult where
  status : Int
  calls : List HostCall
  diagnostics : List String
deriving DecidableEq

/-- `Agent_OnAttach` (agent.cpp lines 80-121): obtain the JVMTI environment,
add the sampling capability, set the callbacks, set the sampling interval,
enable the event; abort with `JNI_ERR` at the first failing step, return
`JNI_OK` when all succeed.  `options` and `reserved` are unused by the
source body. -/
def Agent_OnAttach (host : Host) (options : String) (reserved : Unit) : AttachResult :=
  if host.getEnvResult ≠ JNI_OK then
    { status := JNI_ERR, calls := [HostCall.getEnv],
      diagnostics := ["Error retrieving JVMTI function table\n"] }
  else if (HandleJvmtiError host host.addCapabilitiesError
      "Failed to add JVMTI capabilities").1 then
    { status := JNI_ERR, calls := [HostCall.getEnv, HostCall.addCapabilities],
      diagnostics := (HandleJvmtiError host host.addCapabilitiesError
        "Failed to add JVMTI capabilities").2 }
  else if (HandleJvmtiError host host.setEventCallbacksError
      "Failed to set JVMTI callbacks").1 then
    { status := JNI_ERR,
      calls := [HostCall.getEnv, HostCall.addCapabilities, HostCall.setEventCallbacks],
      diagnostics := (HandleJvmtiError host host.setEventCallbacksError
        "Failed to set JVMTI callbacks").2 }
  else if (HandleJvmtiError host host.setHeapSamplingIntervalError
      "Failed to set heap sampling interval").1 then
    { status := JNI_ERR,
      calls := [HostCall.getEnv, HostCall.addCapabilities, HostCall.setEventCallbacks,
        HostCall.setHeapSamplingInterval],
      diagnostics := (HandleJvmtiError host host.setHeapSamplingIntervalError
        "Failed to set heap sampling interval").2 }
  else if (HandleJvmtiError host host.setEventNotificationModeError
      "Failed to enable JVMTI events").1 then
    { status := JNI_ERR,
      calls := [HostCall.getEnv, HostCall.addCapabilities, HostCall.setEventCallbacks,
        HostCall.setHeapSamplingInterval, HostCall.setEventNotificationMode],
      diagnostics := (HandleJvmtiError host host.setEventNotificationModeError
        "Failed to enable JVMTI events").2 }
  else
    { status := JNI_OK,
      calls := [HostCall.getEnv, HostCall.addCapabilities, HostCall.setEventCallbacks,
        HostCall.setHeapSamplingInterval, HostCall.setEventNotificationMode],
      diagnostics := [] }

/-- `Agent_OnLoad` (agent.cpp lines 124-127): delegates to `Agent_OnAttach`. -/
def Agent_OnLoad (host : Host) (options : String) (reserved : Unit) : AttachResult :=
  Agent_OnAttach host options reserved

/-! ### Helper lemmas -/

/-- `wrap64` is the identity on the representable `jlong` range. -/
theorem wrap64_eq_self (x : Int) (h1 : -(2 ^ 63) ≤ x) (h2 : x < 2 ^ 63) : wrap64 x = x := by
  unfold wrap64
  norm_num at h1 h2 ⊢
  split <;> omega

/-- The sampling interval is positive. -/
theorem interval_pos : 0 < kHeapSamplingIntervalLong := by
  norm_num [kHeapSamplingIntervalLong, kHeapSamplingInterval]

/-- Each per-notification charge is at least the interval. -/
theorem interval_le_charge (s : Int) :
    kHeapSamplingIntervalLong ≤ max kHeapSamplingIntervalLong s :=
  le_max_left _ _

theorem chargeSum_nil : chargeSum [] = 0 := rfl

theorem chargeSum_cons (s : Int) (rest : List Int) :
    chargeSum (s :: rest) = max kHeapSamplingIntervalLong s + chargeSum rest := by
  simp [chargeSum]

/-- The predicted total is non-negative. -/
theorem chargeSum_nonneg (sizes : List Int) : 0 ≤ chargeSum sizes := by
  induction sizes with
  | nil => simp [chargeSum_nil]
  | cons s rest ih =>
    rw [chargeSum_cons]
    have h1 := interval_le_charge s
    have h2 := interval_pos
    omega

/-- The notified thread's cell after a notification. -/
theorem sampledObjectAlloc_self (st : AgentState) (t : ThreadId) (s : Int) :
    (SampledObjectAlloc st t s).thread_allocations t
      = wrap64 (st.thread_allocations t + max kHeapSamplingIntervalLong s) := by
  simp [SampledObjectAlloc]

/-- Running a notification list only matters through the notified cell. -/
theorem runNotifies_counter (sizes : List Int) : ∀ st : AgentState, ∀ t : ThreadId,
    (runNotifies st t sizes).thread_allocations t
      = applyCharges (st.thread_allocations t) sizes := by
  induction sizes with
  | nil => intro st t; rfl
  | cons s rest ih =>
    intro st t
    have h1 : runNotifies st t (s :: rest) = runNotifies (SampledObjectAlloc st t s) t rest := rfl
    rw [h1, ih (SampledObjectAlloc st t s) t, sampledObjectAlloc_self]
    rfl

/-- Without overflow, the fold of wrapped additions is the plain sum. -/
theorem applyCharges_eq_sum (sizes : List Int) : ∀ c : Int, 0 ≤ c →
    c + chargeSum sizes < 2 ^ 63 → applyCharges c sizes = c + chargeSum sizes := by
  induction sizes with
  | nil => intro c _ _; simp [applyCharges, chargeSum_nil]
  | cons s rest ih =>
    intro c hc hlt
    have hmax := interval_le_charge s
    have hpos := interval_pos
    have hrest := chargeSum_nonneg rest
    rw [chargeSum_cons] at hlt
    have hw : wrap64 (c + max kHeapSamplingIntervalLong s)
        = c + max kHeapSamplingIntervalLong s := by
      apply wrap64_eq_self <;> omega
    have hstep : applyCharges c (s :: rest)
        = applyCharges (wrap64 (c + max kHeapSamplingIntervalLong s)) rest := rfl
    rw [hstep, hw, ih (c + max kHeapSamplingIntervalLong s) (by omega) (by omega),
      chargeSum_cons]
    ring

/-- A thread that no operation of the list notifies keeps its cell. -/
theorem foldl_untouched (ops : List Op) : ∀ st : AgentState, ∀ t : ThreadId,
    (∀ o ∈ ops, notifiesThread t o = false) →
    (ops.foldl step st).thread_allocations t = st.thread_allocations t := by
  induction ops with
  | nil => intro st t _; rfl
  | cons o rest ih =>
    intro st t h
    have hrest : ∀ x ∈ rest, notifiesThread t x = false :=
      fun x hx => h x (List.mem_cons_of_mem _ hx)
    have ho : notifiesThread t o = false := h o (List.mem_cons_self _ _)
    have h1 : (o :: rest).foldl step st = rest.foldl step (step st o) := rfl
    rw [h1, ih (step st o) t hrest]
    cases o with
    | queryCount u => rfl
    | notifyAlloc u s =>
      have hne : t ≠ u := by
        intro he
        subst he
        simp [notifiesThread] at ho
      simp [step, SampledObjectAlloc, hne]

/-! ### Claim theorems -/

/-- C1 (amended): one invocation of `SampledObjectAlloc` on a thread whose
counter would not overflow `jlong` increases that thread's counter by exactly
`max(kHeapSamplingInterval, size)`, with the interval fixed at 262144. -/
theorem c1_sampledObjectAlloc_adds_max (st : AgentState) (t : ThreadId) (s : Int)
    (hlo : -(2 ^ 63) ≤ st.thread_allocations t)
    (hhi : st.thread_allocations t + max kHeapSamplingIntervalLong s < 2 ^ 63) :
    (SampledObjectAlloc st t s).thread_allocations t
      = st.thread_allocations t + max kHeapSamplingIntervalLong s
      ∧ kHeapSamplingInterval = 262144 := by
  constructor
  · rw [sampledObjectAlloc_self]
    have h1 := interval_le_charge s
    have h2 := interval_pos
    apply wrap64_eq_self <;> omega
  · norm_num [kHeapSamplingInterval]

/-- C1 witness: from the zeroed start state, one notification of reported
size 100000 adds exactly `max(262144, 100000) = 262144`. -/
theorem c1_witness :
    (SampledObjectAlloc initState 0 100000).thread_allocations 0
      = initState.thread_allocations 0 + max kHeapSamplingIntervalLong 100000
      ∧ kHeapSamplingInterval = 262144 :=
  c1_sampledObjectAlloc_adds_max initState 0 100000 (by decide) (by decide)

/-- C1 counterexample: at the reachable state whose counter is `2 ^ 63 - 1`
(one notification of size `2 ^ 63 - 1` from start), a further notification of
size 0 does not increase the counter by `max(262144, 0)`: the `jlong`
addition wraps. -/
theorem c1_counterexample :
    ¬ ((SampledObjectAlloc (SampledObjectAlloc initState 0 (2 ^ 63 - 1)) 0 0).thread_allocations 0
        = (SampledObjectAlloc initState 0 (2 ^ 63 - 1)).thread_allocations 0
          + max kHeapSamplingIntervalLong 0) := by
  decide

/-- C9: the counter is a 64-bit signed `jlong` and the addition is unchecked:
the updated cell is `(old + max(262144, size))` reduced modulo `2 ^ 64` and
reinterpreted as signed two's complement (`wrap64`), and some finite run of
notifications from the zeroed start state drives the counter negative. -/
theorem c9_jlong_wraparound :
    (∀ st : AgentState, ∀ t : ThreadId, ∀ s : Int,
        (SampledObjectAlloc st t s).thread_allocations t
          = wrap64 (st.thread_allocations t + max kHeapSamplingIntervalLong s))
    ∧ ∃ sizes : List Int, (runNotifies initState 0 sizes).thread_allocations 0 < 0 := by
  constructor
  · intro st t s
    exact sampledObjectAlloc_self st t s
  · exact ⟨[2 ^ 63 - 1, 2 ^ 63 - 1], by decide⟩

/-- C2 (amended): for a sequence of notifications on one thread starting from
the zeroed counter, as long as the running total stays below `2 ^ 63` (no
`jlong` overflow), the counter after the whole sequence equals the sum of
`max(I, s_i)` over all i — the additions accumulate and nothing resets the
cell. -/
theorem c2_runNotifies_eq_chargeSum (t : ThreadId) (sizes : List Int)
    (h : chargeSum sizes < 2 ^ 63) :
    (runNotifies initState t sizes).thread_allocations t = chargeSum sizes := by
  rw [runNotifies_counter]
  have h0 : initState.thread_allocations t = 0 := rfl
  rw [h0, applyCharges_eq_sum sizes 0 le_rfl (by omega)]
  omega

/-- C2 witness: sizes 100000 and 500000 on thread 0 accumulate to
`262144 + 500000`. -/
theorem c2_witness :
    chargeSum [100000, 500000] < 2 ^ 63
      ∧ (runNotifies initState 0 [100000, 500000]).thread_allocations 0
          = chargeSum [100000, 500000] :=
  ⟨by decide, c2_runNotifies_eq_chargeSum 0 [100000, 500000] (by decide)⟩

/-- C2 counterexample: two notifications of size `2 ^ 62` on one thread from
the zeroed start state leave a counter different from
`max(I, 2 ^ 62) + max(I, 2 ^ 62) = 2 ^ 63`: the second addition wraps to
`-2 ^ 63`. -/
theorem c2_counterexample :
    ¬ ((runNotifies initState 0 [2 ^ 62, 2 ^ 62]).thread_allocations 0
        = chargeSum [2 ^ 62, 2 ^ 62]) := by
  decide

/-- C3: the query returns the calling thread's current cell, and after any
operation sequence from agent start containing no notification on thread `t`,
querying on `t` returns exactly 0. -/
theorem c3_query_zero_without_notifications (ops : List Op) (t : ThreadId)
    (h : ∀ o ∈ ops, notifiesThread t o = false) :
    countAllocationsForCurrentThread (execOps ops) t = 0
      ∧ ∀ st : AgentState, ∀ u : ThreadId,
          countAllocationsForCurrentThread st u = st.thread_allocations u := by
  constructor
  · have h1 : (execOps ops).thread_allocations t = initState.thread_allocations t :=
      foldl_untouched ops initState t h
    exact h1
  · intro st u
    rfl

/-- C3 witness: a run holding a notification on thread 1 and a query on
thread 0 leaves thread 0's queried counter at 0. -/
theorem c3_witness :
    countAllocationsForCurrentThread
        (execOps [Op.notifyAlloc 1 5, Op.queryCount 0]) 0 = 0 :=
  (c3_query_zero_without_notifications [Op.notifyAlloc 1 5, Op.queryCount 0] 0
    (by decide)).1

/-- C4 (amended): every operation leaves every thread's counter no smaller,
provided that a notification's `jlong` addition does not overflow (the
notified cell is in the representable range and the sum stays below
`2 ^ 63`). -/
theorem c4_step_monotone (st : AgentState) (op : Op) (u : ThreadId)
    (h : ∀ t : ThreadId, ∀ s : Int, op = Op.notifyAlloc t s →
      -(2 ^ 63) ≤ st.thread_allocations t
        ∧ st.thread_allocations t + max kHeapSamplingIntervalLong s < 2 ^ 63) :
    st.thread_allocations u ≤ (step st op).thread_allocations u := by
  cases op with
  | queryCount v => exact le_refl _
  | notifyAlloc t s =>
    obtain ⟨hlo, hhi⟩ := h t s rfl
    by_cases he : u = t
    · subst he
      rw [show step st (Op.notifyAlloc u s) = SampledObjectAlloc st u s from rfl,
        sampledObjectAlloc_self]
      have h1 := interval_le_charge s
      have h2 := interval_pos
      rw [wrap64_eq_self _ (by omega) (by omega)]
      omega
    · simp [step, SampledObjectAlloc, he]

/-- C4 witness: a notification of size 100 on thread 0 from the zeroed start
state does not decrease thread 0's counter. -/
theorem c4_witness :
    initState.thread_allocations 0
      ≤ (step initState (Op.notifyAlloc 0 100)).thread_allocations 0 :=
  c4_step_monotone initState (Op.notifyAlloc 0 100) 0
    (fun t s he => by cases he; exact ⟨by decide, by decide⟩)

/-- C4 counterexample: on the reachable run that first notifies size
`2 ^ 63 - 1` and then size 0 on thread 0, the second operation strictly
decreases the counter (the `jlong` wraps), so the counter is not
monotonically non-decreasing as stated. -/
theorem c4_counterexample :
    ¬ ((runNotifies initState 0 [2 ^ 63 - 1]).thread_allocations 0
        ≤ (runNotifies initState 0 [2 ^ 63 - 1, 0]).thread_allocations 0) := by
  decide

/-- C8: a notification on thread `t` updates only `t`'s entry of the
thread-to-counter map: every other thread's cell and queryable counter are
unchanged. -/
theorem c8_sampledObjectAlloc_frame (st : AgentState) (t : ThreadId) (s : Int)
    (u : ThreadId) (h : u ≠ t) :
    (SampledObjectAlloc st t s).thread_allocations u = st.thread_allocations u
      ∧ countAllocationsForCurrentThread (SampledObjectAlloc st t s) u
          = countAllocationsForCurrentThread st u := by
  constructor
  · simp [SampledObjectAlloc, h]
  · simp [countAllocationsForCurrentThread, SampledObjectAlloc, h]

/-- C8 witness: a notification on thread 0 leaves thread 1's counter as it
was. -/
theorem c8_witness :
    (SampledObjectAlloc initState 0 5).thread_allocations 1
        = initState.thread_allocations 1
      ∧ countAllocationsForCurrentThread (SampledObjectAlloc initState 0 5) 1
          = countAllocationsForCurrentThread initState 1 :=
  c8_sampledObjectAlloc_frame initState 0 5 1 (by decide)

/-- C10: the query is a pure read: as a step it leaves the entire state
unchanged, so two consecutive queries with no intervening notification
return the same value. -/
theorem c10_query_pure (st : AgentState) (t : ThreadId) :
    step st (Op.queryCount t) = st
      ∧ countAllocationsForCurrentThread (step st (Op.queryCount t)) t
          = countAllocationsForCurrentThread st t :=
  ⟨rfl, rfl⟩

/-- C5: `Agent_OnAttach` returns `JNI_OK` exactly when all five
initialization steps succeed; otherwise it returns the error status
`JNI_ERR`, and the trace of host calls stops at the first failing step, so
no later step is executed. -/
theorem c5_onAttach_failfast (host : Host) (options : String) (reserved : Unit) :
    ((Agent_OnAttach host options reserved).status = JNI_OK ↔
      host.getEnvResult = JNI_OK ∧ host.addCapabilitiesError = 0
        ∧ host.setEventCallbacksError = 0 ∧ host.setHeapSamplingIntervalError = 0
        ∧ host.setEventNotificationModeError = 0)
    ∧ ((Agent_OnAttach host options reserved).status = JNI_OK
        ∨ (Agent_OnAttach host options reserved).status = JNI_ERR)
    ∧ (host.getEnvResult ≠ JNI_OK →
        (Agent_OnAttach host options reserved).calls = [HostCall.getEnv])
    ∧ (host.getEnvResult = JNI_OK → host.addCapabilitiesError ≠ 0 →
        (Agent_OnAttach host options reserved).calls
          = [HostCall.getEnv, HostCall.addCapabilities])
    ∧ (host.getEnvResult = JNI_OK → host.addCapabilitiesError = 0 →
        host.setEventCallbacksError ≠ 0 →
        (Agent_OnAttach host options reserved).calls
          = [HostCall.getEnv, HostCall.addCapabilities, HostCall.setEventCallbacks])
    ∧ (host.getEnvResult = JNI_OK → host.addCapabilitiesError = 0 →
        host.setEventCallbacksError = 0 → host.setHeapSamplingIntervalError ≠ 0 →
        (Agent_OnAttach host options reserved).calls
          = [HostCall.getEnv, HostCall.addCapabilities, HostCall.setEventCallbacks,
              HostCall.setHeapSamplingInterval]) := by
  by_cases hg : host.getEnvResult = 0 <;>
    by_cases h1 : host.addCapabilitiesError = 0 <;>
      by_cases h2 : host.setEventCallbacksError = 0 <;>
        by_cases h3 : host.setHeapSamplingIntervalError = 0 <;>
          by_cases h4 : host.setEventNotificationModeError = 0 <;>
            simp [Agent_OnAttach, HandleJvmtiError, JVMTI_ERROR_NONE, JNI_OK, JNI_ERR,
              hg, h1, h2, h3, h4]

/-- C5 witness (the spec's scenario): with only the capability step failing
(simulated host error 99), initialization returns `JNI_ERR` and the trace
ends at the capability step — the callback, interval and event steps are
never executed. -/
theorem c5_witness :
    (Agent_OnAttach
        { getEnvResult := 0, addCapabilitiesError := 99, setEventCallbacksError := 0,
          setHeapSamplingIntervalError := 0, setEventNotificationModeError := 0,
          getErrorName := fun _ => none } "" ()).calls
      = [HostCall.getEnv, HostCall.addCapabilities] :=
  ((((c5_onAttach_failfast
      { getEnvResult := 0, addCapabilitiesError := 99, setEventCallbacksError := 0,
        setHeapSamplingIntervalError := 0, setEventNotificationModeError := 0,
        getErrorName := fun _ => none } "" ()).2).2).2).1 (by decide) (by decide)

/-- C6 counterexample: the claim says every initialization failure is
reported with the failing step's description, the host's numeric status code
and the host's name for it; but with a host whose `GetEnv` call fails
(status -2) and whose name lookup would even succeed, `Agent_OnAttach`
prints only the fixed line `"Error retrieving JVMTI function table\n"`,
which contains no decimal digit at all — no numeric status code and no
host-provided name appears in the report. -/
theorem c6_counterexample :
    (Agent_OnAttach
        { getEnvResult := -2, addCapabilitiesError := 0, setEventCallbacksError := 0,
          setHeapSamplingIntervalError := 0, setEventNotificationModeError := 0,
          getErrorName := fun _ => some "JVMTI_ERROR_ACCESS_DENIED" } "" ()).diagnostics
      = ["Error retrieving JVMTI function table\n"]
    ∧ "Error retrieving JVMTI function table\n".toList.any Char.isDigit = false := by
  constructor
  · rfl
  · decide

/-- C6 (amended): every failure of the four JVMTI-mediated initialization
steps is reported to stderr by exactly one line carrying the step's
description, the host's numeric status code and the host's human-readable
name for it, with `"Unknown"` substituted when the name lookup yields no
name and no second report for the failed lookup; the `GetEnv` failure is
the one exception: it is reported by the fixed line
`"Error retrieving JVMTI function table\n"` alone, which carries no code
and no name. -/
theorem c6_error_reporting_amended (host : Host) (err : Nat) (msg : String)
    (h : err ≠ 0) :
    (HandleJvmtiError host err msg).1 = true
      ∧ (HandleJvmtiError host err msg).2
          = ["JVMTI error: " ++ toString err ++ "("
              ++ (host.getErrorName err).getD "Unknown" ++ ") " ++ msg ++ "\n"]
      ∧ (host.getErrorName err = none →
          (HandleJvmtiError host err msg).2
            = ["JVMTI error: " ++ toString err ++ "(" ++ "Unknown" ++ ") " ++ msg ++ "\n"])
      ∧ (HandleJvmtiError host err msg).2.length = 1
      ∧ (∀ options : String, ∀ reserved : Unit,
          (host.getEnvResult ≠ JNI_OK →
            (Agent_OnAttach host options reserved).diagnostics
              = ["Error retrieving JVMTI function table\n"])
          ∧ (host.getEnvResult = JNI_OK → host.addCapabilitiesError ≠ 0 →
              (Agent_OnAttach host options reserved).diagnostics
                = (HandleJvmtiError host host.addCapabilitiesError
                    "Failed to add JVMTI capabilities").2)
          ∧ (host.getEnvResult = JNI_OK → host.addCapabilitiesError = 0 →
              host.setEventCallbacksError ≠ 0 →
              (Agent_OnAttach host options reserved).diagnostics
                = (HandleJvmtiError host host.setEventCallbacksError
                    "Failed to set JVMTI callbacks").2)
          ∧ (host.getEnvResult = JNI_OK → host.addCapabilitiesError = 0 →
              host.setEventCallbacksError = 0 → host.setHeapSamplingIntervalError ≠ 0 →
              (Agent_OnAttach host options reserved).diagnostics
                = (HandleJvmtiError host host.setHeapSamplingIntervalError
                    "Failed to set heap sampling interval").2)
          ∧ (host.getEnvResult = JNI_OK → host.addCapabilitiesError = 0 →
              host.setEventCallbacksError = 0 → host.setHeapSamplingIntervalError = 0 →
              host.setEventNotificationModeError ≠ 0 →
              (Agent_OnAttach host options reserved).diagnostics
                = (HandleJvmtiError host host.setEventNotificationModeError
                    "Failed to enable JVMTI events").2)) := by
  refine ⟨?_, ?_, ?_, ?_, ?_⟩
  · simp [HandleJvmtiError, JVMTI_ERROR_NONE, h]
  · simp [HandleJvmtiError, JVMTI_ERROR_NONE, h]
  · intro hn
    simp [HandleJvmtiError, JVMTI_ERROR_NONE, h, hn]
  · simp [HandleJvmtiError, JVMTI_ERROR_NONE, h]
  · intro options reserved
    by_cases hg : host.getEnvResult = 0 <;>
      by_cases h1 : host.addCapabilitiesError = 0 <;>
        by_cases h2 : host.setEventCallbacksError = 0 <;>
          by_cases h3 : host.setHeapSamplingIntervalError = 0 <;>
            by_cases h4 : host.setEventNotificationModeError = 0 <;>
              simp [Agent_OnAttach, HandleJvmtiError, JVMTI_ERROR_NONE, JNI_OK, JNI_ERR,
                hg, h1, h2, h3, h4]

/-- C6 witness: error code 99 with a host whose name lookup fails yields the
single line with the `"Unknown"` placeholder. -/
theorem c6_amended_witness :
    (HandleJvmtiError
        { getEnvResult := 0, addCapabilitiesError := 0, setEventCallbacksError := 0,
          setHeapSamplingIntervalError := 0, setEventNotificationModeError := 0,
          getErrorName := fun _ => none } 99 "Failed to add JVMTI capabilities").2.length
      = 1 :=
  (c6_error_reporting_amended
      { getEnvResult := 0, addCapabilitiesError := 0, setEventCallbacksError := 0,
        setHeapSamplingIntervalError := 0, setEventNotificationModeError := 0,
        getErrorName := fun _ => none } 99 "Failed to add JVMTI capabilities"
      (by decide)).2.2.2.1

/-- C7: for every input triple, `Agent_OnLoad` returns the same status and
produces the same host-call trace and diagnostics as `Agent_OnAttach`: it
delegates unconditionally. -/
theorem c7_onLoad_delegates (host : Host) (options : String) (reserved : Unit) :
    Agent_OnLoad host options reserved = Agent_OnAttach host options reserved :=
  rfl

end IdePerfAgent
